import Mathlib

/-!
Verification of the StreetEasy scraper module (the scraper part of `main.py`).

The development shallowly embeds the pure computational core of the scraper:

* `extract_number`       — numeric extraction from noisy text;
* a small backtracking regular-expression engine (`RE`, `mseq`, `reSearch`,
  `reMatchFull`) over `List Char`, with the source's patterns transcribed
  as data (each pattern definition carries the original regex in a comment);
* `parse_listing_date`   — the strptime cascade over five date formats,
  modelled after CPython's `_strptime` regexes and `datetime` validation;
* `calculate_listing_date_from_days` — listing date from days on market;
* the card-text cascades (`card_sqft`, `card_taxes`, `card_fees`, price and
  neighborhood extraction) and `buildListing`/`parseCards`;
* the detail-page cascades (`detail_date`, `detail_days`, `detail_sqft`,
  `detail_taxes`, `detail_fees`) and `scrape_listing_details_extract`;
* `dedup` — URL/address first-seen deduplication;
* `mergeDetails`/`enrichOne` — the enrichment merge;
* `pageLoop`/`scrape_streeteasy` — the pagination controller.

Dates and datetimes are modelled at whole-day granularity: a datetime is an
`Int` ordinal (days since 0001-01-01, as in Python's `date.toordinal`), and
`datetime.now()` is an explicit `now : Int` parameter.  Network fetching and
HTML soup queries are external collaborators: a page fetch is a function
`Nat → PageResult` and a detail fetch is `String → Option (List Char)`
(`none` models an exception, which the source converts to an empty dict).
-/

namespace SE

/-- Python truthiness of an optional string: `None` and `""` are falsy. -/
def pyTruthy : Option String → Bool
  | none => false
  | some s => s != ""

/-- Whitespace characters recognised by `str.strip` and the regex class
`\s` (ASCII range, which covers all text these functions receive). -/
def isSpaceChar (c : Char) : Bool :=
  c = ' ' || c = '\t' || c = '\n' || c = '\r' || c = '\x0b' || c = '\x0c'

/-- ASCII lower-casing, as applied by `re.IGNORECASE` and `str.lower`. -/
def asciiLower (c : Char) : Char :=
  if 'A' ≤ c && c ≤ 'Z' then Char.ofNat (c.toNat + 32) else c

/-- Python `str.strip()`: drop whitespace from both ends. -/
def pyStrip (l : List Char) : List Char :=
  ((l.dropWhile isSpaceChar).reverse.dropWhile isSpaceChar).reverse

/-- First `some` produced by `f` along `l` — the shape of every
"try rules in order, first success wins" loop in the source. -/
def firstSome : List α → (α → Option β) → Option β
  | [], _ => none
  | a :: rest, f =>
    match f a with
    | some b => some b
    | none => firstSome rest f

/-! ## `extract_number`

Source:
```
def extract_number(text):
    if not text:
        return None
    cleaned = text.replace(dollar, '').replace(comma, '').replace('/mo', '').replace('/month', '').strip()
    match = re.search(r'\d+', cleaned)
    return int(match.group()) if match else None
```
`str.replace(single char, '')` removes every occurrence of that character;
the two substring replacements scan left to right, non-overlapping. -/

/-- Remove every (non-overlapping, left-to-right) occurrence of `/mo`. -/
def removeMo : List Char → List Char
  | '/' :: 'm' :: 'o' :: rest => removeMo rest
  | c :: rest => c :: removeMo rest
  | [] => []

/-- Remove every occurrence of `/month` (applied after `removeMo`, exactly
as the source chains the two `replace` calls). -/
def removeMonth : List Char → List Char
  | '/' :: 'm' :: 'o' :: 'n' :: 't' :: 'h' :: rest => removeMonth rest
  | c :: rest => c :: removeMonth rest
  | [] => []

/-- First maximal run of decimal digits in a string (`re.search(r'\d+', s)`). -/
def firstDigitRun : List Char → Option (List Char)
  | [] => none
  | c :: rest =>
    if c.isDigit then some (c :: rest.takeWhile Char.isDigit)
    else firstDigitRun rest

/-- Decimal value of a digit string (Python `int`). -/
def natOfDigits (l : List Char) : Nat :=
  l.foldl (fun acc c => 10 * acc + (c.toNat - '0'.toNat)) 0

def extract_number (text : List Char) : Option Nat :=
  if text.isEmpty then none
  else
    let cleaned :=
      pyStrip (removeMonth (removeMo ((text.filter (· ≠ '$')).filter (· ≠ ','))))
    match firstDigitRun cleaned with
    | some run => some (natOfDigits run)
    | none => none

/-! ## A small regular-expression engine

Patterns are data; the matcher `mseq` implements leftmost search with
ordered-alternation backtracking and greedy quantifiers, i.e. the semantics
of Python's `re` restricted to the constructs the source uses.  The `fuel`
argument only bounds the recursion depth through the pattern structure so
the definitions stay structurally recursive (and kernel-evaluable); the
constant `FUEL` is far larger than any pattern's depth. -/

/-- The character classes appearing in the source's regexes. -/
inductive CCls where
  | digit       -- \d
  | digitComma  -- [\d,]
  | space       -- \s
  | wordCh      -- \w  (for the \b boundary)
  | dotAny      -- .   (anything but a newline)
  | colonDash   -- [:\-]
  | r01         -- [01]
  | r02         -- [0-2]
  | r12         -- [12]
  | r19         -- [1-9]
  deriving DecidableEq

def CCls.test : CCls → Char → Bool
  | .digit, c => c.isDigit
  | .digitComma, c => c.isDigit || c = ','
  | .space, c => isSpaceChar c
  | .wordCh, c => c.isAlphanum || c = '_'
  | .dotAny, c => c ≠ '\n'
  | .colonDash, c => c = ':' || c = '-'
  | .r01, c => c = '0' || c = '1'
  | .r02, c => c = '0' || c = '1' || c = '2'
  | .r12, c => c = '1' || c = '2'
  | .r19, c => c.isDigit && c ≠ '0'

/-- Regex abstract syntax.  Literals are stored lower-case; the matcher
lower-cases input characters, giving `re.IGNORECASE` semantics (case is
irrelevant for the digit/punctuation parts). -/
inductive RE where
  | lit (c : Char)
  | cls (c : CCls)
  | many (c : CCls)               -- c*
  | many1 (c : CCls)              -- c+
  | rep (c : CCls) (lo hi : Nat)  -- c{lo,hi}
  | opt (rs : List RE)            -- (?:rs)?
  | alt (cases : List (List RE))  -- (?:a|b|...)
  | grp (rs : List RE)            -- (rs) capture group
  | wordBoundary                  -- \b (used only after a word character)

/-- Suffixes of `l` obtained by consuming 0, 1, 2, … leading characters of
class `c` (shortest consumption first, stopping at the first non-member). -/
def consumeChain (c : CCls) : List Char → List (List Char)
  | [] => [[]]
  | x :: xs => (x :: xs) :: (if c.test x then consumeChain c xs else [])

/-- Continuation: remaining input and captures collected so far. -/
def MCont := List Char → List (List Char) → Option (List (List Char))

/-- Match a regex sequence against a prefix of the input, in
continuation-passing style.  Alternatives are tried in order and
quantifiers greedily (longest first), with full backtracking through the
continuation — Python `re` semantics for these patterns. -/
def mseq : Nat → List RE → List Char → List (List Char) → MCont →
    Option (List (List Char))
  | 0, _, _, _, _ => none
  | Nat.succ _, [], l, caps, k => k l caps
  | Nat.succ fuel, r :: rs, l, caps, k =>
    match r with
    | .lit c =>
      match l with
      | [] => none
      | x :: xs => if asciiLower x = c then mseq fuel rs xs caps k else none
    | .cls c =>
      match l with
      | [] => none
      | x :: xs => if c.test x then mseq fuel rs xs caps k else none
    | .many c =>
      firstSome (consumeChain c l).reverse (fun l2 => mseq fuel rs l2 caps k)
    | .many1 c =>
      match l with
      | [] => none
      | x :: xs =>
        if c.test x then
          firstSome (consumeChain c xs).reverse (fun l2 => mseq fuel rs l2 caps k)
        else none
    | .rep c lo hi =>
      firstSome (((consumeChain c l).take (hi + 1)).drop lo).reverse
        (fun l2 => mseq fuel rs l2 caps k)
    | .opt inner =>
      match mseq fuel inner l caps (fun l2 c2 => mseq fuel rs l2 c2 k) with
      | some res => some res
      | none => mseq fuel rs l caps k
    | .alt cases =>
      firstSome cases
        (fun branch => mseq fuel branch l caps (fun l2 c2 => mseq fuel rs l2 c2 k))
    | .grp inner =>
      mseq fuel inner l caps
        (fun l2 c2 => mseq fuel rs l2 (c2 ++ [l.take (l.length - l2.length)]) k)
    | .wordBoundary =>
      match l with
      | [] => mseq fuel rs [] caps k
      | x :: _ => if CCls.wordCh.test x then none else mseq fuel rs l caps k

def FUEL : Nat := 300

/-- Try to match `p` starting exactly at the head of `l`; on success return
the first capture group (`match.group(1)`). -/
def reSearchAt (p : List RE) (l : List Char) : Option (List Char) :=
  match mseq FUEL p l [] (fun _ caps => some caps) with
  | some (c :: _) => some c
  | _ => none

/-- `re.search`: leftmost match wins; returns `match.group(1)`. -/
def reSearch (p : List RE) : List Char → Option (List Char)
  | [] => reSearchAt p []
  | x :: rest =>
    match reSearchAt p (x :: rest) with
    | some c => some c
    | none => reSearch p rest

/-- Anchored match that must consume the whole input, returning all capture
groups in order — the shape of CPython's `strptime` regex use
(`format_regex.match` plus the "unconverted data remains" check). -/
def reMatchFull (p : List RE) (l : List Char) : Option (List (List Char)) :=
  mseq FUEL p l [] (fun rest caps => if rest.isEmpty then some caps else none)

/-- Literal word: each character as a lower-cased literal. -/
def lits (s : String) : List RE := s.data.map RE.lit

/-! ## Date normalisation

`parse_listing_date` tries five `datetime.strptime` formats in order:
`'%m/%d/%Y', '%m-%d-%Y', '%Y-%m-%d', '%B %d, %Y', '%b %d, %Y'`.
CPython's `_strptime` compiles each format to a case-insensitive regex
(`%m` ↦ `1[0-2]|0[1-9]|[1-9]`, `%d` ↦ `3[01]|[12]\d|0[1-9]|[1-9]`,
`%Y` ↦ `\d\d\d\d`, `%B`/`%b` ↦ the month-name alternation, whitespace in
the format ↦ `\s+`), matches it at the start of the string, rejects the
format when unconverted data remains, and finally validates the triple
through the `datetime` constructor (raising `ValueError`, which the source
catches and treats as "try the next format"). -/

structure YMD where
  year : Nat
  month : Nat
  day : Nat
  deriving DecidableEq

def leapYear (y : Nat) : Bool :=
  y % 4 = 0 && (y % 100 ≠ 0 || y % 400 = 0)

def daysInMonth (y m : Nat) : Nat :=
  if m = 2 then (if leapYear y then 29 else 28)
  else if m = 4 ∨ m = 6 ∨ m = 9 ∨ m = 11 then 30 else 31

/-- The validation performed by `datetime(year, month, day)`:
`MINYEAR ≤ year ≤ MAXYEAR`, `1 ≤ month ≤ 12`, `1 ≤ day ≤ daysInMonth`. -/
def mkValidDate (y m d : Nat) : Option YMD :=
  if 1 ≤ y ∧ y ≤ 9999 ∧ 1 ≤ m ∧ m ≤ 12 ∧ 1 ≤ d ∧ d ≤ daysInMonth y m then
    some ⟨y, m, d⟩
  else none

/-- `%m` — `(?P<m>1[0-2]|0[1-9]|[1-9])`. -/
def reM : RE :=
  .grp [.alt [[.lit '1', .cls .r02], [.lit '0', .cls .r19], [.cls .r19]]]

/-- `%d` — `(?P<d>3[01]|[12]\d|0[1-9]|[1-9])`. -/
def reD : RE :=
  .grp [.alt [[.lit '3', .cls .r01], [.cls .r12, .cls .digit],
              [.lit '0', .cls .r19], [.cls .r19]]]

/-- `%Y` — `(?P<Y>\d\d\d\d)`. -/
def reY : RE := .grp [.cls .digit, .cls .digit, .cls .digit, .cls .digit]

/-- Full month names in calendar order (used to translate a matched name
to its month number, as `list.index` does in `_strptime`). -/
def monthNamesFull : List String :=
  ["january", "february", "march", "april", "may", "june", "july",
   "august", "september", "october", "november", "december"]

/-- Full month names ordered as `_strptime` builds its alternation:
sorted by length, longest first, stable.  (No full name is a prefix of
another, so the order does not change the language matched.) -/
def monthNamesFullSorted : List String :=
  ["september", "february", "november", "december", "january", "october",
   "august", "march", "april", "june", "july", "may"]

/-- Abbreviated month names in calendar order (all length 3). -/
def monthNamesAbbr : List String :=
  ["jan", "feb", "mar", "apr", "may", "jun", "jul", "aug", "sep", "oct",
   "nov", "dec"]

/-- `%B` — alternation over full month names. -/
def reB : RE := .grp [.alt (monthNamesFullSorted.map lits)]

/-- `%b` — alternation over abbreviated month names. -/
def reb : RE := .grp [.alt (monthNamesAbbr.map lits)]

def monthIndexAux : List String → Nat → List Char → Option Nat
  | [], _, _ => none
  | n :: rest, i, s => if n.data = s then some i else monthIndexAux rest (i + 1) s

/-- Month number of a (lower-cased) captured month name. -/
def monthIndex (names : List String) (s : List Char) : Option Nat :=
  monthIndexAux names 1 s

/-- Format regex of `'%m/%d/%Y'`. -/
def fmt_mdY_slash : List RE := [reM, .lit '/', reD, .lit '/', reY]

/-- Format regex of `'%m-%d-%Y'`. -/
def fmt_mdY_dash : List RE := [reM, .lit '-', reD, .lit '-', reY]

/-- Format regex of `'%Y-%m-%d'`. -/
def fmt_Ymd : List RE := [reY, .lit '-', reM, .lit '-', reD]

/-- Format regex of `'%B %d, %Y'` (a space in the format becomes `\s+`). -/
def fmt_BdY : List RE := [reB, .many1 .space, reD, .lit ',', .many1 .space, reY]

/-- Format regex of `'%b %d, %Y'`. -/
def fmt_bdY : List RE := [reb, .many1 .space, reD, .lit ',', .many1 .space, reY]

def strptime_mdY_slash (l : List Char) : Option YMD :=
  match reMatchFull fmt_mdY_slash l with
  | some [ms, ds, ys] => mkValidDate (natOfDigits ys) (natOfDigits ms) (natOfDigits ds)
  | _ => none

def strptime_mdY_dash (l : List Char) : Option YMD :=
  match reMatchFull fmt_mdY_dash l with
  | some [ms, ds, ys] => mkValidDate (natOfDigits ys) (natOfDigits ms) (natOfDigits ds)
  | _ => none

def strptime_Ymd (l : List Char) : Option YMD :=
  match reMatchFull fmt_Ymd l with
  | some [ys, ms, ds] => mkValidDate (natOfDigits ys) (natOfDigits ms) (natOfDigits ds)
  | _ => none

def strptime_BdY (l : List Char) : Option YMD :=
  match reMatchFull fmt_BdY l with
  | some [bs, ds, ys] =>
    match monthIndex monthNamesFull (bs.map asciiLower) with
    | some m => mkValidDate (natOfDigits ys) m (natOfDigits ds)
    | none => none
  | _ => none

def strptime_bdY (l : List Char) : Option YMD :=
  match reMatchFull fmt_bdY l with
  | some [bs, ds, ys] =>
    match monthIndex monthNamesAbbr (bs.map asciiLower) with
    | some m => mkValidDate (natOfDigits ys) m (natOfDigits ds)
    | none => none
  | _ => none

/-- The five formats, in the order the source tries them. -/
def date_format_list : List (List Char → Option YMD) :=
  [strptime_mdY_slash, strptime_mdY_dash, strptime_Ymd, strptime_BdY, strptime_bdY]

/-- Source:
```
def parse_listing_date(date_str):
    if not date_str:
        return None
    try:
        date_str = date_str.strip()
        date_formats = [five formats]
        for fmt in date_formats:
            try:
                return datetime.strptime(date_str, fmt)
            except ValueError:
                continue
        return None
    except Exception:
        return None
```
Total by construction — every failure path yields `none`. -/
def parse_listing_date (date_str : Option String) : Option YMD :=
  match date_str with
  | none => none
  | some s =>
    if s.data.isEmpty then none
    else firstSome date_format_list (fun f => f (pyStrip s.data))

/-- Days before month `m` in year `y` (0 for January). -/
def daysBeforeMonth (y m : Nat) : Nat :=
  (List.range (m - 1)).foldl (fun acc i => acc + daysInMonth y (i + 1)) 0

/-- Python's `date.toordinal`: day 1 is 0001-01-01.  Datetimes are
modelled as their ordinal (whole-day granularity). -/
def toOrdinal (d : YMD) : Int :=
  ((365 * (d.year - 1) + (d.year - 1) / 4 - (d.year - 1) / 100
    + (d.year - 1) / 400 + daysBeforeMonth d.year d.month + d.day : Nat) : Int)

/-- Source:
```
def calculate_listing_date_from_days(days_on_market):
    if not days_on_market or days_on_market < 0:
        return None
    try:
        current_date = datetime.now()
        listing_date = current_date - timedelta(days=days_on_market)
        return listing_date
    except Exception:
        return None
```
Python's `not days_on_market` is true for `None` and for `0`. -/
def calculate_listing_date_from_days (now : Int) (days_on_market : Option Int) : Option Int :=
  match days_on_market with
  | none => none
  | some d => if d = 0 ∨ d < 0 then none else some (now - d)

/-- The controller's `deriveDaysFromDate` (lines 947-949):
`(datetime.now() - listing_date).days`, at whole-day granularity. -/
def derive_days_from_date (now : Int) (listing_date : Int) : Int :=
  now - listing_date

/-! ## Detail-page pattern cascades (`scrape_listing_details`) -/

/-- The date capture shared by the four direct-date patterns:
`(\d{1,2}/\d{1,2}/\d{4})`. -/
def dateCapture : RE :=
  .grp [.rep .digit 1 2, .lit '/', .rep .digit 1 2, .lit '/', .rep .digit 4 4]

/-- `date_patterns`, in source order:
`Sales?\s+start\s*:?\s*(\d{1,2}/\d{1,2}/\d{4})`,
`Listed\s*:?\s*(...)`,
`List(?:ing)?\s+date\s*:?\s*(...)`,
`(?:On\s+market|Listed)\s+(?:since|on)\s*:?\s*(...)`. -/
def date_patterns : List (List RE) :=
  [ lits "sale" ++ [.opt [.lit 's'], .many1 .space] ++ lits "start"
      ++ [.many .space, .opt [.lit ':'], .many .space, dateCapture],
    lits "listed" ++ [.many .space, .opt [.lit ':'], .many .space, dateCapture],
    lits "list" ++ [.opt (lits "ing"), .many1 .space] ++ lits "date"
      ++ [.many .space, .opt [.lit ':'], .many .space, dateCapture],
    [.alt [lits "on" ++ [.many1 .space] ++ lits "market", lits "listed"],
     .many1 .space, .alt [lits "since", lits "on"],
     .many .space, .opt [.lit ':'], .many .space, dateCapture] ]

/-- Direct listing-date extraction: for each pattern in order, if it matches,
parse the captured date; accept the first successful parse (a pattern that
matches but fails to parse falls through to the next pattern). -/
def detail_date (text : List Char) : Option Int :=
  firstSome date_patterns (fun p =>
    (reSearch p text).bind (fun cap =>
      (parse_listing_date (some (String.mk cap))).map toOrdinal))

/-- `days_patterns`, in source order:
`Days?\s+on\s+market\s*:?\s*(\d+)\s*days?`,
`(\d+)\s*days?\s+on\s+market`,
`Listed\s+for\s+(\d+)\s*days?`,
`On\s+market\s+for\s+(\d+)\s*days?`. -/
def days_patterns : List (List RE) :=
  [ lits "day" ++ [.opt [.lit 's'], .many1 .space] ++ lits "on"
      ++ [.many1 .space] ++ lits "market"
      ++ [.many .space, .opt [.lit ':'], .many .space, .grp [.many1 .digit],
          .many .space] ++ lits "day" ++ [.opt [.lit 's']],
    [.grp [.many1 .digit], .many .space] ++ lits "day"
      ++ [.opt [.lit 's'], .many1 .space] ++ lits "on" ++ [.many1 .space]
      ++ lits "market",
    lits "listed" ++ [.many1 .space] ++ lits "for"
      ++ [.many1 .space, .grp [.many1 .digit], .many .space] ++ lits "day"
      ++ [.opt [.lit 's']],
    lits "on" ++ [.many1 .space] ++ lits "market" ++ [.many1 .space]
      ++ lits "for"
      ++ [.many1 .space, .grp [.many1 .digit], .many .space] ++ lits "day"
      ++ [.opt [.lit 's']] ]

/-- Days-on-market extraction: first pattern whose captured count yields a
truthy `calculate_listing_date_from_days` result wins (a match whose
derived date is falsy falls through to the next pattern). -/
def detail_days (now : Int) (text : List Char) : Option (Nat × Int) :=
  firstSome days_patterns (fun p =>
    (reSearch p text).bind (fun cap =>
      let days := natOfDigits cap
      (calculate_listing_date_from_days now (some (days : Int))).map
        (fun dt => (days, dt))))

/-- `sqft_patterns` of the detail page, in source order:
`(\d[\d,]+)\s*sq\.?\s*f(?:ee)?t`, `(\d[\d,]+)\s*sqft`, `(\d[\d,]+)\s*SF\b`,
`(?:interior|size)\s*:?\s*(\d[\d,]+)`, `approx\.?\s*(\d[\d,]+)\s*sq`,
`(\d[\d,]+)\s*square\s*feet`, `total\s*:?\s*(\d[\d,]+)\s*sq`,
`area\s*:?\s*(\d[\d,]+)\s*sq`, `(\d[\d,]+)\s*ft(?:²|²)`. -/
def detail_sqft_patterns : List (List RE) :=
  [ [.grp [.cls .digit, .many1 .digitComma], .many .space, .lit 's', .lit 'q',
     .opt [.lit '.'], .many .space, .lit 'f', .opt [.lit 'e', .lit 'e'], .lit 't'],
    [.grp [.cls .digit, .many1 .digitComma], .many .space] ++ lits "sqft",
    [.grp [.cls .digit, .many1 .digitComma], .many .space, .lit 's', .lit 'f',
     .wordBoundary],
    [.alt [lits "interior", lits "size"], .many .space, .opt [.lit ':'],
     .many .space, .grp [.cls .digit, .many1 .digitComma]],
    lits "approx" ++ [.opt [.lit '.'], .many .space,
     .grp [.cls .digit, .many1 .digitComma], .many .space] ++ lits "sq",
    [.grp [.cls .digit, .many1 .digitComma], .many .space] ++ lits "square"
      ++ [.many .space] ++ lits "feet",
    lits "total" ++ [.many .space, .opt [.lit ':'], .many .space,
     .grp [.cls .digit, .many1 .digitComma], .many .space] ++ lits "sq",
    lits "area" ++ [.many .space, .opt [.lit ':'], .many .space,
     .grp [.cls .digit, .many1 .digitComma], .many .space] ++ lits "sq",
    [.grp [.cls .digit, .many1 .digitComma], .many .space] ++ lits "ft"
      ++ [.alt [[.lit '²'], [.lit '²']]] ]

/-- Detail sqft: first matching pattern whose value passes
`sqft_val and 200 <= sqft_val <= 10000` (a failing value falls through). -/
def detail_sqft (text : List Char) : Option Nat :=
  firstSome detail_sqft_patterns (fun p =>
    match reSearch p text with
    | some cap =>
      match extract_number cap with
      | some v => if v ≠ 0 ∧ 200 ≤ v ∧ v ≤ 10000 then some v else none
      | none => none
    | none => none)

/-- `tax_patterns` of the detail page, in source order:
`monthly\s*taxes?\s*:?\s*\$?([\d,]+)`,
`taxes?\s*\(?monthly\)?\s*:?\s*\$?([\d,]+)`,
`taxes?\s*:?\s*\$?([\d,]+)\s*/?mo`,
`taxes?\s*:?\s*\$?([\d,]+)\s*per\s*month`,
`\$?([\d,]+)\s*/?mo\s*taxes?`,
`property\s*tax\s*:?\s*\$?([\d,]+)`,
`tax\s*:?\s*\$?([\d,]+)\s*monthly`. -/
def detail_tax_patterns : List (List RE) :=
  [ lits "monthly" ++ [.many .space] ++ lits "taxe" ++ [.opt [.lit 's'],
     .many .space, .opt [.lit ':'], .many .space, .opt [.lit '$'],
     .grp [.many1 .digitComma]],
    lits "taxe" ++ [.opt [.lit 's'], .many .space, .opt [.lit '(']]
      ++ lits "monthly" ++ [.opt [.lit ')'], .many .space, .opt [.lit ':'],
     .many .space, .opt [.lit '$'], .grp [.many1 .digitComma]],
    lits "taxe" ++ [.opt [.lit 's'], .many .space, .opt [.lit ':'],
     .many .space, .opt [.lit '$'], .grp [.many1 .digitComma],
     .many .space, .opt [.lit '/']] ++ lits "mo",
    lits "taxe" ++ [.opt [.lit 's'], .many .space, .opt [.lit ':'],
     .many .space, .opt [.lit '$'], .grp [.many1 .digitComma],
     .many .space] ++ lits "per" ++ [.many .space] ++ lits "month",
    [.opt [.lit '$'], .grp [.many1 .digitComma], .many .space,
     .opt [.lit '/']] ++ lits "mo" ++ [.many .space] ++ lits "taxe"
      ++ [.opt [.lit 's']],
    lits "property" ++ [.many .space] ++ lits "tax" ++ [.many .space,
     .opt [.lit ':'], .many .space, .opt [.lit '$'], .grp [.many1 .digitComma]],
    lits "tax" ++ [.many .space, .opt [.lit ':'], .many .space,
     .opt [.lit '$'], .grp [.many1 .digitComma], .many .space]
      ++ lits "monthly" ]

/-- Detail taxes: first matching pattern whose value passes
`tax_val and 0 < tax_val < 50000`. -/
def detail_taxes (text : List Char) : Option Nat :=
  firstSome detail_tax_patterns (fun p =>
    match reSearch p text with
    | some cap =>
      match extract_number cap with
      | some v => if v ≠ 0 ∧ 0 < v ∧ v < 50000 then some v else none
      | none => none
    | none => none)

/-- `fee_patterns` of the detail page, in source order:
`common\s*charges?\s*:?\s*\$?([\d,]+)`,
`maintenance\s*:?\s*\$?([\d,]+)`,
`HOA\s*(?:fees?)?\s*:?\s*\$?([\d,]+)`,
`monthly\s*(?:common\s*)?charges?\s*:?\s*\$?([\d,]+)`,
`\$?([\d,]+)\s*/?mo\s*(?:common|maint|CC)`,
`CC\s*:?\s*\$?([\d,]+)`,
`common\s*:?\s*\$?([\d,]+)\s*/?mo`,
`maint\.?\s*:?\s*\$?([\d,]+)\s*/?mo`. -/
def detail_fee_patterns : List (List RE) :=
  [ lits "common" ++ [.many .space] ++ lits "charge" ++ [.opt [.lit 's'],
     .many .space, .opt [.lit ':'], .many .space, .opt [.lit '$'],
     .grp [.many1 .digitComma]],
    lits "maintenance" ++ [.many .space, .opt [.lit ':'], .many .space,
     .opt [.lit '$'], .grp [.many1 .digitComma]],
    lits "hoa" ++ [.many .space, .opt (lits "fee" ++ [.opt [.lit 's']]),
     .many .space, .opt [.lit ':'], .many .space, .opt [.lit '$'],
     .grp [.many1 .digitComma]],
    lits "monthly" ++ [.many .space, .opt (lits "common" ++ [.many .space])]
      ++ lits "charge" ++ [.opt [.lit 's'], .many .space, .opt [.lit ':'],
     .many .space, .opt [.lit '$'], .grp [.many1 .digitComma]],
    [.opt [.lit '$'], .grp [.many1 .digitComma], .many .space,
     .opt [.lit '/']] ++ lits "mo" ++ [.many .space,
     .alt [lits "common", lits "maint", lits "cc"]],
    lits "cc" ++ [.many .space, .opt [.lit ':'], .many .space,
     .opt [.lit '$'], .grp [.many1 .digitComma]],
    lits "common" ++ [.many .space, .opt [.lit ':'], .many .space,
     .opt [.lit '$'], .grp [.many1 .digitComma], .many .space,
     .opt [.lit '/']] ++ lits "mo",
    lits "maint" ++ [.opt [.lit '.'], .many .space, .opt [.lit ':'],
     .many .space, .opt [.lit '$'], .grp [.many1 .digitComma], .many .space,
     .opt [.lit '/']] ++ lits "mo" ]

/-- Detail fees: first matching pattern whose value passes
`fee_val and 0 < fee_val < 20000`. -/
def detail_fees (text : List Char) : Option Nat :=
  firstSome detail_fee_patterns (fun p =>
    match reSearch p text with
    | some cap =>
      match extract_number cap with
      | some v => if v ≠ 0 ∧ 0 < v ∧ v < 20000 then some v else none
      | none => none
    | none => none)

/-- The partial field set produced by `scrape_listing_details` (its
`details` dict). -/
structure Details where
  listing_date : Option Int := none
  days_on_market : Option Nat := none
  sqft : Option Nat := none
  taxes : Option Nat := none
  fees : Option Nat := none
  deriving DecidableEq

/-- The exception path of `scrape_listing_details`: `return {}`. -/
def emptyDetails : Details := {}

/-- The pure extraction core of `scrape_listing_details`, applied to the
page's combined text (fetching and text flattening are collaborators).
The direct date cascade runs first; the days-on-market cascade is consulted
only when it found nothing, and then records both the derived date and the
day count.  The sqft/tax/fee cascades are independent of the date ones. -/
def scrape_listing_details_extract (now : Int) (text : List Char) : Details :=
  let dd : Option Int × Option Nat :=
    match detail_date text with
    | some d => (some d, none)
    | none =>
      match detail_days now text with
      | some (n, dt) => (some dt, some n)
      | none => (none, none)
  { listing_date := dd.1, days_on_market := dd.2,
    sqft := detail_sqft text, taxes := detail_taxes text,
    fees := detail_fees text }

/-! ## Card parser (`scrape_streeteasy` page loop body) -/

/-- One listing record (the `listing` dict).  Money and sqft are `Nat`
(Python non-negative ints here), dates are ordinals, `days_on_market` is an
`Int` because line 949 can store a negative difference in principle. -/
structure Listing where
  address : Option String := none
  neighborhood : Option String := none
  price : Option Nat := none
  sqft : Option Nat := none
  taxes : Option Nat := none
  fees : Option Nat := none
  listing_date : Option Int := none
  days_on_market : Option Int := none
  url : Option String := none
  deriving DecidableEq

/-- What the soup queries of the card-parsing block yield for one card
element; the BeautifulSoup tree search itself is a collaborator.
`saleLinkHref` is the href of `card.find('a', href=re.compile(r'/sale/\d+'))`,
`buildingLinkHref` of the `/building/` fallback, `anyLinkHref` of
`card.find('a', href=True)`; `text` is `card.get_text(separator='|',
strip=True)`; the three elem-text fields are the found elements' texts
(`none` when the element query found nothing). -/
structure Card where
  saleLinkHref : Option String := none
  buildingLinkHref : Option String := none
  anyLinkHref : Option String := none
  text : List Char := []
  addressElemText : Option String := none
  neighborhoodElemText : Option (List Char) := none
  priceElemText : Option (List Char) := none
  deriving DecidableEq

/-- Card sqft patterns, in source order (note: no plausibility bounds, and
`(\d[\d,]*)` accepts a single digit):
`(\d[\d,]*)\s*sq\.?\s*ft`, `(\d[\d,]*)\s*sqft`, `(\d[\d,]*)\s*SF`. -/
def card_sqft_patterns : List (List RE) :=
  [ [.grp [.cls .digit, .many .digitComma], .many .space, .lit 's', .lit 'q',
     .opt [.lit '.'], .many .space] ++ lits "ft",
    [.grp [.cls .digit, .many .digitComma], .many .space] ++ lits "sqft",
    [.grp [.cls .digit, .many .digitComma], .many .space] ++ lits "sf" ]

/-- Card tax patterns, in source order:
`taxes?\s*[:\-]?\s*\$?([\d,]+)(?:/mo|/month)?`,
`\$?([\d,]+)\s*(?:/mo|/month)?\s*taxes?`. -/
def card_tax_patterns : List (List RE) :=
  [ lits "taxe" ++ [.opt [.lit 's'], .many .space, .opt [.cls .colonDash],
     .many .space, .opt [.lit '$'], .grp [.many1 .digitComma],
     .opt [.alt [lits "/mo", lits "/month"]]],
    [.opt [.lit '$'], .grp [.many1 .digitComma], .many .space,
     .opt [.alt [lits "/mo", lits "/month"]], .many .space]
      ++ lits "taxe" ++ [.opt [.lit 's']] ]

/-- Card fee patterns, in source order (the space in `common charges?` is a
literal space, not `\s`):
`common charges?\s*[:\-]?\s*\$?([\d,]+)(?:/mo)?`,
`maint(?:enance)?\s*[:\-]?\s*\$?([\d,]+)(?:/mo)?`. -/
def card_fee_patterns : List (List RE) :=
  [ lits "common" ++ [.lit ' '] ++ lits "charge" ++ [.opt [.lit 's'],
     .many .space, .opt [.cls .colonDash], .many .space, .opt [.lit '$'],
     .grp [.many1 .digitComma], .opt (lits "/mo")],
    lits "maint" ++ [.opt (lits "enance"), .many .space, .opt [.cls .colonDash],
     .many .space, .opt [.lit '$'], .grp [.many1 .digitComma],
     .opt (lits "/mo")] ]

/-- A card cascade stops at the first pattern that matches and assigns
`extract_number` of its capture — with no plausibility check and even when
that number is `None`. -/
def runCardCascade (pats : List (List RE)) (text : List Char) : Option Nat :=
  match firstSome pats (fun p => reSearch p text) with
  | some cap => extract_number cap
  | none => none

def card_sqft (text : List Char) : Option Nat :=
  runCardCascade card_sqft_patterns text

def card_taxes (text : List Char) : Option Nat :=
  runCardCascade card_tax_patterns text

def card_fees (text : List Char) : Option Nat :=
  runCardCascade card_fee_patterns text

/-- Price fallback search in the card text: `\$\s*[\d,]+` (the whole match
is the group, since the source takes `match.group()`). -/
def card_price_pattern : List RE :=
  [.grp [.lit '$', .many .space, .many1 .digitComma]]

/-- Neighborhood pattern on the description line: `in\s+(.*)`. -/
def neighborhood_pattern : List RE :=
  lits "in" ++ [.many1 .space, .grp [.many .dotAny]]

/-- The per-card body of the page loop (lines 798-883): build one listing
record from a card. -/
def buildListing (card : Card) : Listing :=
  let link :=
    match card.saleLinkHref with
    | some h => some h
    | none =>
      match card.buildingLinkHref with
      | some h => some h
      | none => card.anyLinkHref
  let url :=
    match link with
    | some href =>
      if href ≠ "" then
        some (if href.data.head? = some '/' then "https://streeteasy.com" ++ href
              else href)
      else none
    | none => none
  let neighborhood :=
    match card.neighborhoodElemText with
    | some t => (reSearch neighborhood_pattern t).map (fun cap => String.mk (pyStrip cap))
    | none => none
  let price :=
    match card.priceElemText with
    | some t => extract_number t
    | none =>
      match reSearch card_price_pattern card.text with
      | some g => extract_number g
      | none => none
  { address := card.addressElemText,
    neighborhood := neighborhood,
    price := price,
    sqft := card_sqft card.text,
    taxes := card_taxes card.text,
    fees := card_fees card.text,
    listing_date := none,
    days_on_market := none,
    url := url }

/-- Lines 885-886: a parsed card is appended to the page's listings only
when `listing['url'] or listing['address']` is truthy. -/
def parseCards (cards : List Card) : List Listing :=
  (cards.map buildListing).filter (fun l => pyTruthy l.url || pyTruthy l.address)

/-! ## Deduplication (lines 909-924) -/

/-- The dedup scan: first-seen URL wins when the record's `url` is truthy,
else first-seen address when `address` is truthy; a record with neither is
dropped. -/
def dedupGo : List Listing → List String → List String → List Listing
  | [], _, _ => []
  | r :: rest, seenUrls, seenAddrs =>
    if pyTruthy r.url then
      if r.url.getD "" ∈ seenUrls then dedupGo rest seenUrls seenAddrs
      else r :: dedupGo rest (r.url.getD "" :: seenUrls) seenAddrs
    else if pyTruthy r.address then
      if r.address.getD "" ∈ seenAddrs then dedupGo rest seenUrls seenAddrs
      else r :: dedupGo rest seenUrls (r.address.getD "" :: seenAddrs)
    else dedupGo rest seenUrls seenAddrs

def dedup (listings : List Listing) : List Listing :=
  dedupGo listings [] []

/-! ## Enrichment merge (lines 930-949) -/

/-- The field-merge body for one listing whose detail scrape produced
`details`.  Each `if details.get(f):` overwrites only when the detail value
is truthy (a datetime is always truthy, so a present `listing_date` always
overwrites); then, if the merged record has a truthy `listing_date` and a
falsy `days_on_market`, days on market is derived from the date. -/
def mergeDetails (now : Int) (listing : Listing) (details : Details) : Listing :=
  let sqft1 :=
    match details.sqft with
    | some v => if v ≠ 0 then some v else listing.sqft
    | none => listing.sqft
  let taxes1 :=
    match details.taxes with
    | some v => if v ≠ 0 then some v else listing.taxes
    | none => listing.taxes
  let fees1 :=
    match details.fees with
    | some v => if v ≠ 0 then some v else listing.fees
    | none => listing.fees
  let date1 :=
    match details.listing_date with
    | some d => some d
    | none => listing.listing_date
  let days1 : Option Int :=
    match details.days_on_market with
    | some v => if v ≠ 0 then some (v : Int) else listing.days_on_market
    | none => listing.days_on_market
  let days2 :=
    match date1 with
    | some d => if days1 = none ∨ days1 = some 0 then some (now - d) else days1
    | none => days1
  { listing with sqft := sqft1, taxes := taxes1, fees := fees1,
                 listing_date := date1, days_on_market := days2 }

/-- The per-listing enrichment step: records with a falsy `url` are left
untouched; otherwise the detail page is fetched (`none` models the
exception path, which yields an empty details dict) and merged. -/
def enrichOne (detailFetch : String → Option (List Char)) (now : Int)
    (listing : Listing) : Listing :=
  if pyTruthy listing.url then
    let details :=
      match detailFetch (listing.url.getD "") with
      | some text => scrape_listing_details_extract now text
      | none => emptyDetails
    mergeDetails now listing details
  else listing

/-! ## Pagination controller (`scrape_streeteasy`) -/

/-- Outcome of fetching one search page: the cards the soup finds on it, an
`requests.exceptions.HTTPError` with its status code, or any other
exception. -/
inductive PageResult where
  | ok (cards : List Card)
  | httpError (code : Nat)
  | otherError

/-- The page loop over the remaining page numbers.  Returns the accumulated
listings and the list of pages actually requested.  An empty card list
breaks the loop (end of results); an `HTTPError` or any other exception
breaks it too (after the page was requested). -/
def pageLoop (fetch : Nat → PageResult) : List Nat → List Listing × List Nat
  | [] => ([], [])
  | p :: rest =>
    match fetch p with
    | .ok cards =>
      if cards.isEmpty then ([], [p])
      else
        let ls := parseCards cards
        let (more, pgs) := pageLoop fetch rest
        (ls ++ more, p :: pgs)
    | .httpError _ => ([], [p])
    | .otherError => ([], [p])

/-- `scrape_streeteasy`: crawl pages `1..max_pages`, deduplicate, then (when
requested and the deduplicated list is non-empty) enrich every listing. -/
def scrape_streeteasy (fetch : Nat → PageResult)
    (detailFetch : String → Option (List Char)) (scrape_details : Bool)
    (max_pages : Nat) (now : Int) : List Listing :=
  let all_listings := (pageLoop fetch (List.range' 1 max_pages)).1
  let listings := dedup all_listings
  if scrape_details && !listings.isEmpty then
    listings.map (enrichOne detailFetch now)
  else listings

/-! ## Concrete collaborators used to instantiate the theorems -/

/-- A fetcher whose every page request is rejected with HTTP 403. -/
def fetch403 : Nat → PageResult := fun _ => .httpError 403

/-- A card table for a crawl that never reaches a successful page. -/
def noCards : Nat → List Card := fun _ => []

/-- A detail fetcher that always fails (exception path). -/
def noDetails : String → Option (List Char) := fun _ => none

/-- Accumulated card-parser output over a list of pages, page order
preserved — the shape `pageLoop` produces. -/
def gatherListings (cards : Nat → List Card) (pages : List Nat) : List Listing :=
  pages.foldr (fun j acc => parseCards (cards j) ++ acc) []

/-! # Theorems -/

theorem firstSome_spec {α β : Type} (P : β → Prop) (f : α → Option β)
    (h : ∀ a b, f a = some b → P b) :
    ∀ (l : List α) (b : β), firstSome l f = some b → P b := by
  intro l
  induction l with
  | nil => intro b hb; simp [firstSome] at hb
  | cons a rest ih =>
    intro b hb
    simp only [firstSome] at hb
    cases hfa : f a with
    | some b0 =>
      rw [hfa] at hb
      have hb0 : b0 = b := by simpa using hb
      exact h a b (hb0 ▸ hfa)
    | none => rw [hfa] at hb; exact ih b hb

theorem firstSome_eq_none {α β : Type} (f : α → Option β) :
    ∀ (l : List α), (∀ a ∈ l, f a = none) → firstSome l f = none := by
  intro l
  induction l with
  | nil => intro _; rfl
  | cons a rest ih =>
    intro h
    simp only [firstSome, h a (by simp)]
    exact ih (fun x hx => h x (by simp [hx]))

theorem calculate_some (now d dt : Int)
    (h : calculate_listing_date_from_days now (some d) = some dt) :
    1 ≤ d ∧ dt = now - d := by
  simp only [calculate_listing_date_from_days] at h
  by_cases hc : d = 0 ∨ d < 0
  · rw [if_pos hc] at h; cases h
  · rw [if_neg hc] at h
    refine ⟨by omega, ?_⟩
    exact (Option.some.inj h).symm

theorem detail_sqft_range (text : List Char) (v : Nat)
    (h : detail_sqft text = some v) : 200 ≤ v ∧ v ≤ 10000 := by
  refine firstSome_spec (fun v => 200 ≤ v ∧ v ≤ 10000) _ ?_ _ v h
  intro p b hb
  cases hs : reSearch p text with
  | none => rw [hs] at hb; simp at hb
  | some cap =>
    rw [hs] at hb
    dsimp only at hb
    cases he : extract_number cap with
    | none => rw [he] at hb; simp at hb
    | some w =>
      rw [he] at hb
      dsimp only at hb
      by_cases hc : w ≠ 0 ∧ 200 ≤ w ∧ w ≤ 10000
      · rw [if_pos hc] at hb
        obtain rfl : w = b := Option.some.inj hb
        exact ⟨hc.2.1, hc.2.2⟩
      · rw [if_neg hc] at hb; simp at hb

theorem detail_taxes_range (text : List Char) (v : Nat)
    (h : detail_taxes text = some v) : 0 < v ∧ v < 50000 := by
  refine firstSome_spec (fun v => 0 < v ∧ v < 50000) _ ?_ _ v h
  intro p b hb
  cases hs : reSearch p text with
  | none => rw [hs] at hb; simp at hb
  | some cap =>
    rw [hs] at hb
    dsimp only at hb
    cases he : extract_number cap with
    | none => rw [he] at hb; simp at hb
    | some w =>
      rw [he] at hb
      dsimp only at hb
      by_cases hc : w ≠ 0 ∧ 0 < w ∧ w < 50000
      · rw [if_pos hc] at hb
        obtain rfl : w = b := Option.some.inj hb
        exact hc.2
      · rw [if_neg hc] at hb; simp at hb

theorem detail_fees_range (text : List Char) (v : Nat)
    (h : detail_fees text = some v) : 0 < v ∧ v < 20000 := by
  refine firstSome_spec (fun v => 0 < v ∧ v < 20000) _ ?_ _ v h
  intro p b hb
  cases hs : reSearch p text with
  | none => rw [hs] at hb; simp at hb
  | some cap =>
    rw [hs] at hb
    dsimp only at hb
    cases he : extract_number cap with
    | none => rw [he] at hb; simp at hb
    | some w =>
      rw [he] at hb
      dsimp only at hb
      by_cases hc : w ≠ 0 ∧ 0 < w ∧ w < 20000
      · rw [if_pos hc] at hb
        obtain rfl : w = b := Option.some.inj hb
        exact hc.2
      · rw [if_neg hc] at hb; simp at hb

theorem detail_days_pos (now : Int) (text : List Char) (n : Nat) (dt : Int)
    (h : detail_days now text = some (n, dt)) : 1 ≤ n ∧ dt = now - n := by
  refine firstSome_spec (fun p => 1 ≤ p.1 ∧ p.2 = now - p.1) _ ?_ _ (n, dt) h
  intro p b hb
  cases hs : reSearch p text with
  | none => rw [hs] at hb; simp at hb
  | some cap =>
    rw [hs] at hb
    simp only [Option.bind] at hb
    cases hc : calculate_listing_date_from_days now (some ((natOfDigits cap : Nat) : Int)) with
    | none => rw [hc] at hb; simp at hb
    | some dt0 =>
      rw [hc] at hb
      simp only [Option.map] at hb
      have hcs := calculate_some now _ dt0 hc
      cases hb
      refine ⟨?_, hcs.2⟩
      exact_mod_cast hcs.1

theorem sde_sqft (now : Int) (text : List Char) :
    (scrape_listing_details_extract now text).sqft = detail_sqft text := rfl

theorem sde_taxes (now : Int) (text : List Char) :
    (scrape_listing_details_extract now text).taxes = detail_taxes text := rfl

theorem sde_fees (now : Int) (text : List Char) :
    (scrape_listing_details_extract now text).fees = detail_fees text := rfl

/-- The detail extraction stores a `days_on_market` only together with the
date derived from it, and only with a positive count. -/
theorem extract_days_inv (now : Int) (text : List Char) (n : Nat)
    (h : (scrape_listing_details_extract now text).days_on_market = some n) :
    1 ≤ n ∧ (scrape_listing_details_extract now text).listing_date = some (now - n) := by
  revert h
  unfold scrape_listing_details_extract
  cases hd : detail_date text with
  | some d => intro h; simp at h
  | none =>
    cases hds : detail_days now text with
    | none => intro h; simp at h
    | some p =>
      obtain ⟨m, dt⟩ := p
      intro h
      dsimp only at h ⊢
      obtain rfl : m = n := Option.some.inj h
      have hp := detail_days_pos now text m dt hds
      exact ⟨hp.1, by simp [hp.2]⟩

/-- The dedup scan keeps records in their original order (a sublist of the
input), whatever the seen-sets. -/
theorem dedupGo_sublist (rs : List Listing) :
    ∀ (su sa : List String), (dedupGo rs su sa).Sublist rs := by
  induction rs with
  | nil => intro su sa; simp [dedupGo]
  | cons r rest ih =>
    intro su sa
    simp only [dedupGo]
    by_cases h1 : pyTruthy r.url
    · rw [if_pos h1]
      by_cases h2 : r.url.getD "" ∈ su
      · rw [if_pos h2]; exact (ih su sa).cons r
      · rw [if_neg h2]; exact (ih _ sa).cons₂ r
    · rw [if_neg h1]
      by_cases h3 : pyTruthy r.address
      · rw [if_pos h3]
        by_cases h4 : r.address.getD "" ∈ sa
        · rw [if_pos h4]; exact (ih su sa).cons r
        · rw [if_neg h4]; exact (ih su _).cons₂ r
      · rw [if_neg h3]; exact (ih su sa).cons r

/-- Splitting a `range'` at an interior offset. -/
theorem range'_split : ∀ (i s n : Nat), i ≤ n →
    List.range' s n = List.range' s i ++ List.range' (s + i) (n - i) := by
  intro i
  induction i with
  | zero => intro s n _; simp
  | succ j ih =>
    intro s n h
    cases n with
    | zero => omega
    | succ m =>
      have hj : j ≤ m := by omega
      have e1 : s + (j + 1) = (s + 1) + j := by omega
      have e2 : m + 1 - (j + 1) = m - j := by omega
      rw [List.range'_succ, List.range'_succ, ih (s + 1) m hj, e1, e2]
      rfl

/-- The page loop over `qs ++ k :: rs`, when every page in `qs` succeeds
with a non-empty card list and page `k` raises an HTTP error: it gathers
exactly the pages of `qs` and requests exactly `qs ++ [k]`. -/
theorem pageLoop_break (fetch : Nat → PageResult) (cards : Nat → List Card)
    (code : Nat) :
    ∀ (qs : List Nat) (k : Nat) (rs : List Nat),
      (∀ j ∈ qs, fetch j = .ok (cards j) ∧ cards j ≠ []) →
      fetch k = .httpError code →
      pageLoop fetch (qs ++ k :: rs) = (gatherListings cards qs, qs ++ [k]) := by
  intro qs
  induction qs with
  | nil =>
    intro k rs _ hk
    simp [pageLoop, hk, gatherListings]
  | cons q qt ih =>
    intro k rs hq hk
    have hq1 := hq q (by simp)
    have hne : ((cards q).isEmpty = false) := by
      cases hc : cards q with
      | nil => exact absurd hc hq1.2
      | cons a b => rfl
    simp only [List.cons_append, pageLoop, hq1.1, hne, Bool.false_eq_true,
      if_false, List.append_eq, ih k rs (fun j hj => hq j (by simp [hj])) hk,
      gatherListings, List.foldr_cons]

/-! ## Claim C2 — date/days round-trip -/

/-- C2 counterexample: at `d = 0`, `deriveDateFromDays` returns absent
(Python's `not days_on_market` is true for `0`), so the round trip does not
return `0`; the claimed identity fails for the non-negative integer `0`. -/
theorem c2_roundtrip_counterexample :
    (calculate_listing_date_from_days 738965 (some 0)).map (derive_days_from_date 738965) = none
    ∧ (calculate_listing_date_from_days 738965 (some 0)).map (derive_days_from_date 738965) ≠ some 0 := by
  constructor
  · rfl
  · intro h; cases h

/-- C2 (amended): for every positive integer `d`,
`deriveDaysFromDate(deriveDateFromDays(d)) = d`, where `deriveDateFromDays`
is `calculate_listing_date_from_days` and `deriveDaysFromDate` is the
controller's `(now - date).days`. -/
theorem c2_roundtrip_amended (now d : Int) (h : 1 ≤ d) :
    (calculate_listing_date_from_days now (some d)).map (derive_days_from_date now) = some d := by
  have hne : ¬ (d = 0 ∨ d < 0) := by omega
  simp [calculate_listing_date_from_days, hne, derive_days_from_date]

theorem c2_roundtrip_amended_witness :
    (calculate_listing_date_from_days 100 (some 7)).map (derive_days_from_date 100) = some 7 :=
  c2_roundtrip_amended 100 7 (by norm_num)

/-! ## Claim C3 — `calculate_listing_date_from_days` absence condition -/

/-- C3 counterexample: `days = 0` is neither missing nor negative, yet the
result is absent — `not days_on_market` in Python also catches `0`. -/
theorem c3_absent_counterexample :
    calculate_listing_date_from_days 738965 (some 0) = none
    ∧ ¬ ((some (0 : Int)) = none ∨ (0 : Int) < 0) := by
  refine ⟨rfl, ?_⟩
  rintro (h | h)
  · cases h
  · omega

/-- C3 (amended): `calculate_listing_date_from_days` is absent exactly when
days on market is missing, zero, or negative; for every positive `days` it
returns `now` minus that many days. -/
theorem c3_absent_amended (now : Int) (days : Option Int) :
    (calculate_listing_date_from_days now days = none ↔
      days = none ∨ ∃ d, days = some d ∧ d ≤ 0)
    ∧ (∀ d, days = some d → 0 < d →
        calculate_listing_date_from_days now days = some (now - d)) := by
  cases days with
  | none => simp [calculate_listing_date_from_days]
  | some d =>
    constructor
    · by_cases hc : d = 0 ∨ d < 0
      · simp only [calculate_listing_date_from_days, if_pos hc]
        simp
        omega
      · simp only [calculate_listing_date_from_days, if_neg hc]
        simp
        omega
    · intro d2 hd2 hpos
      obtain rfl : d = d2 := Option.some.inj hd2
      have hc : ¬ (d = 0 ∨ d < 0) := by omega
      simp [calculate_listing_date_from_days, hc]

theorem c3_absent_amended_witness :
    calculate_listing_date_from_days 100 (some 5) = some 95
    ∧ calculate_listing_date_from_days 100 none = none := by
  constructor
  · have h := (c3_absent_amended 100 (some 5)).2 5 rfl (by norm_num)
    simpa using h
  · exact (c3_absent_amended 100 none).1.mpr (Or.inl rfl)

/-! ## Claim C4 — sqft plausibility range -/

/-- C4 counterexample: the claim asserts that extraction from text
containing `3 sqft` yields absent for the card cascade as well; but the
card cascade has no plausibility range, so `card_sqft` on `3 sqft` yields
`3`, not absent. -/
theorem c4_sqft_counterexample :
    card_sqft ("3 sqft".data) = some 3 ∧ card_sqft ("3 sqft".data) ≠ none := by
  refine ⟨by decide, ?_⟩
  intro h
  rw [(by decide : card_sqft ("3 sqft".data) = some 3)] at h
  cases h

/-- C4 (amended): the 200–10000 plausibility range applies to the
detail-page cascade — there, `3 sqft` yields absent and `1,200 sq ft`
yields 1200; the card cascade applies no plausibility check, so on card
text `3 sqft` yields `3` (and `1,200 sq ft` still yields 1200). -/
theorem c4_sqft_amended :
    detail_sqft ("3 sqft".data) = none
    ∧ detail_sqft ("1,200 sq ft".data) = some 1200
    ∧ card_sqft ("1,200 sq ft".data) = some 1200
    ∧ card_sqft ("3 sqft".data) = some 3 := by
  refine ⟨by decide, by decide, by decide, by decide⟩

theorem pyTruthy_some (s : String) : pyTruthy (some s) = (s != "") := rfl

theorem pyTruthy_none : pyTruthy none = false := rfl

/-! ## Claim C1 — deduplication -/

/-- C1: dedup keeps a record the first time its (truthy) url is seen and,
when the url is falsy, the first time its (truthy) address is seen, in
original order.  Two records with the same non-empty URL collapse to the
first occurrence regardless of addresses; records with identical addresses
but different URLs are not deduplicated when the first has a URL (address
duplicates arise only when the records lack URLs). -/
theorem c1_dedup_first_seen :
    (∀ (r1 r2 : Listing) (u : String), r1.url = some u → u ≠ "" → r2.url = some u →
      dedup [r1, r2] = [r1])
    ∧ (∀ rs : List Listing, (dedup rs).Sublist rs)
    ∧ (∀ (r1 r2 : Listing) (a : String), r1.address = some a → a ≠ "" →
        r2.address = some a → pyTruthy r1.url = true → r1.url ≠ r2.url →
        dedup [r1, r2] = [r1, r2])
    ∧ (∀ (r1 r2 : Listing) (a : String), r1.address = some a → a ≠ "" →
        r2.address = some a → pyTruthy r1.url = false → pyTruthy r2.url = false →
        dedup [r1, r2] = [r1]) := by
  refine ⟨?_, ?_, ?_, ?_⟩
  · intro r1 r2 u h1 hne h2
    simp [dedup, dedupGo, pyTruthy_some, h1, h2, hne]
  · intro rs
    exact dedupGo_sublist rs [] []
  · intro r1 r2 a ha1 hane ha2 hu1 hne
    obtain ⟨u1, hu1e, hu1ne⟩ : ∃ u, r1.url = some u ∧ u ≠ "" := by
      cases hr : r1.url with
      | none => rw [hr] at hu1; simp [pyTruthy_none] at hu1
      | some u =>
        refine ⟨u, rfl, ?_⟩
        rw [hr] at hu1
        simpa [pyTruthy_some] using hu1
    cases hr2 : r2.url with
    | none =>
      simp [dedup, dedupGo, pyTruthy_some, pyTruthy_none, hu1e, hu1ne, hr2, ha2, hane]
    | some u2 =>
      by_cases h2e : u2 = ""
      · subst h2e
        simp [dedup, dedupGo, pyTruthy_some, hu1e, hu1ne, hr2, ha2, hane]
      · have hne12 : u2 ≠ u1 := by
          intro hc
          exact hne (by rw [hu1e, hr2, hc])
        simp [dedup, dedupGo, pyTruthy_some, hu1e, hu1ne, hr2, h2e, hne12]
  · intro r1 r2 a ha1 hane ha2 hu1 hu2
    simp [dedup, dedupGo, pyTruthy_some, hu1, hu2, ha1, ha2, hane]

theorem c1_dedup_first_seen_witness :
    dedup [{ url := some "u", address := some "a" },
           { url := some "u", address := some "b" }]
      = [{ url := some "u", address := some "a" }] :=
  c1_dedup_first_seen.1 _ _ "u" rfl (by decide) rfl

/-! ## Claim C5 — `parse_listing_date` format cascade -/

/-- C5: `parse_listing_date` tries the fixed ordered format list
`MM/DD/YYYY`, `MM-DD-YYYY`, `YYYY-MM-DD`, `Month DD, YYYY`, `Mon DD, YYYY`
against the full trimmed input and returns the first full parse; missing
input and input matched by no format give absent.  (The function is total,
so no exception can escape.)  The concrete block exercises each format, the
full-match requirement, trimming, and calendar validation. -/
theorem c5_parse_date_formats :
    (parse_listing_date none = none)
    ∧ (∀ s : String, s.data = [] → parse_listing_date (some s) = none)
    ∧ (∀ (s : String) (d : YMD), s.data ≠ [] →
        strptime_mdY_slash (pyStrip s.data) = some d →
        parse_listing_date (some s) = some d)
    ∧ (∀ (s : String) (d : YMD), s.data ≠ [] →
        strptime_mdY_slash (pyStrip s.data) = none →
        strptime_mdY_dash (pyStrip s.data) = some d →
        parse_listing_date (some s) = some d)
    ∧ (∀ (s : String) (d : YMD), s.data ≠ [] →
        strptime_mdY_slash (pyStrip s.data) = none →
        strptime_mdY_dash (pyStrip s.data) = none →
        strptime_Ymd (pyStrip s.data) = some d →
        parse_listing_date (some s) = some d)
    ∧ (∀ (s : String) (d : YMD), s.data ≠ [] →
        strptime_mdY_slash (pyStrip s.data) = none →
        strptime_mdY_dash (pyStrip s.data) = none →
        strptime_Ymd (pyStrip s.data) = none →
        strptime_BdY (pyStrip s.data) = some d →
        parse_listing_date (some s) = some d)
    ∧ (∀ (s : String) (d : YMD), s.data ≠ [] →
        strptime_mdY_slash (pyStrip s.data) = none →
        strptime_mdY_dash (pyStrip s.data) = none →
        strptime_Ymd (pyStrip s.data) = none →
        strptime_BdY (pyStrip s.data) = none →
        strptime_bdY (pyStrip s.data) = some d →
        parse_listing_date (some s) = some d)
    ∧ (∀ s : String, (∀ f ∈ date_format_list, f (pyStrip s.data) = none) →
        parse_listing_date (some s) = none)
    ∧ (parse_listing_date (some "03/15/2024") = some ⟨2024, 3, 15⟩
       ∧ parse_listing_date (some " 03/15/2024 ") = some ⟨2024, 3, 15⟩
       ∧ parse_listing_date (some "03/15/2024 x") = none
       ∧ parse_listing_date (some "03-15-2024") = some ⟨2024, 3, 15⟩
       ∧ parse_listing_date (some "2024-03-15") = some ⟨2024, 3, 15⟩
       ∧ parse_listing_date (some "March 5, 2024") = some ⟨2024, 3, 5⟩
       ∧ parse_listing_date (some "Mar 5, 2024") = some ⟨2024, 3, 5⟩
       ∧ parse_listing_date (some "02/31/2024") = none
       ∧ parse_listing_date (some "not a date") = none) := by
  refine ⟨rfl, ?_, ?_, ?_, ?_, ?_, ?_, ?_, ?_⟩
  · intro s hs
    simp [parse_listing_date, hs]
  · intro s d hne h1
    simp [parse_listing_date, List.isEmpty_iff, hne, date_format_list, firstSome, h1]
  · intro s d hne h1 h2
    simp [parse_listing_date, List.isEmpty_iff, hne, date_format_list, firstSome, h1, h2]
  · intro s d hne h1 h2 h3
    simp [parse_listing_date, List.isEmpty_iff, hne, date_format_list, firstSome, h1, h2, h3]
  · intro s d hne h1 h2 h3 h4
    simp [parse_listing_date, List.isEmpty_iff, hne, date_format_list, firstSome, h1, h2, h3, h4]
  · intro s d hne h1 h2 h3 h4 h5
    simp [parse_listing_date, List.isEmpty_iff, hne, date_format_list, firstSome, h1, h2, h3, h4, h5]
  · intro s hall
    by_cases hs : s.data = []
    · simp [parse_listing_date, hs]
    · have h1 := hall strptime_mdY_slash (by simp [date_format_list])
      have h2 := hall strptime_mdY_dash (by simp [date_format_list])
      have h3 := hall strptime_Ymd (by simp [date_format_list])
      have h4 := hall strptime_BdY (by simp [date_format_list])
      have h5 := hall strptime_bdY (by simp [date_format_list])
      simp [parse_listing_date, List.isEmpty_iff, hs, date_format_list, firstSome,
        h1, h2, h3, h4, h5]
  · exact ⟨by decide, by decide, by decide, by decide, by decide, by decide,
      by decide, by decide, by decide⟩

theorem c5_parse_date_formats_witness :
    parse_listing_date (some "2024-03-15") = some ⟨2024, 3, 15⟩ :=
  c5_parse_date_formats.2.2.2.2.1 "2024-03-15" ⟨2024, 3, 15⟩
    (by decide) (by decide) (by decide) (by decide)

/-! ## Claim C6 — card-parser output invariant -/

/-- C6: every record in the card parser's output has a truthy (non-empty)
url or a truthy address — the line 885 guard filters out every record that
has neither. -/
theorem c6_card_invariant (cards : List Card) (l : Listing)
    (h : l ∈ parseCards cards) :
    pyTruthy l.url = true ∨ pyTruthy l.address = true := by
  unfold parseCards at h
  have hp := (List.mem_filter.mp h).2
  rcases Bool.or_eq_true _ _ |>.mp hp with h1 | h2
  · exact Or.inl h1
  · exact Or.inr h2

theorem c6_card_invariant_witness :
    pyTruthy (buildListing { saleLinkHref := some "/sale/123" }).url = true
    ∨ pyTruthy (buildListing { saleLinkHref := some "/sale/123" }).address = true :=
  c6_card_invariant [{ saleLinkHref := some "/sale/123" }]
    (buildListing { saleLinkHref := some "/sale/123" }) (by decide)

/-! ## Claim C8 — detail-page date priority -/

/-- C8: on the detail page the direct listing-date cascade is consulted
first; the days-on-market cascade is used only when no direct date was
found, and then both the derived date and the day count are recorded. -/
theorem c8_date_priority (now : Int) (text : List Char) :
    (∀ d, detail_date text = some d →
      (scrape_listing_details_extract now text).listing_date = some d
      ∧ (scrape_listing_details_extract now text).days_on_market = none)
    ∧ (detail_date text = none → ∀ (n : Nat) (dt : Int),
        detail_days now text = some (n, dt) →
        (scrape_listing_details_extract now text).listing_date = some dt
        ∧ (scrape_listing_details_extract now text).days_on_market = some n)
    ∧ (detail_date text = none → detail_days now text = none →
        (scrape_listing_details_extract now text).listing_date = none
        ∧ (scrape_listing_details_extract now text).days_on_market = none) := by
  refine ⟨?_, ?_, ?_⟩
  · intro d hd
    unfold scrape_listing_details_extract
    rw [hd]
    exact ⟨rfl, rfl⟩
  · intro hd n dt hds
    unfold scrape_listing_details_extract
    rw [hd, hds]
    exact ⟨rfl, rfl⟩
  · intro hd hds
    unfold scrape_listing_details_extract
    rw [hd, hds]
    exact ⟨rfl, rfl⟩

theorem c8_date_priority_witness :
    (scrape_listing_details_extract 20000 ("45 days on market".data)).listing_date
      = some 19955
    ∧ (scrape_listing_details_extract 20000 ("45 days on market".data)).days_on_market
      = some 45 :=
  (c8_date_priority 20000 ("45 days on market".data)).2.1 (by decide) 45 19955 (by decide)

/-! ## Claim C10 — enrichment frame -/

/-- C10: the per-record enrichment step only ever changes `sqft`, `taxes`,
`fees`, `listing_date` and `days_on_market`: the `address`, `neighborhood`,
`price` and `url` fields are preserved, and a record whose url is absent is
left entirely unmodified. -/
theorem c10_enrich_frame (detailFetch : String → Option (List Char))
    (now : Int) (l : Listing) :
    ((enrichOne detailFetch now l).address = l.address
     ∧ (enrichOne detailFetch now l).neighborhood = l.neighborhood
     ∧ (enrichOne detailFetch now l).price = l.price
     ∧ (enrichOne detailFetch now l).url = l.url)
    ∧ (l.url = none → enrichOne detailFetch now l = l) := by
  constructor
  · unfold enrichOne
    by_cases h : pyTruthy l.url
    · rw [if_pos h]
      unfold mergeDetails
      exact ⟨rfl, rfl, rfl, rfl⟩
    · rw [if_neg h]
      exact ⟨rfl, rfl, rfl, rfl⟩
  · intro h
    unfold enrichOne
    rw [h]
    rfl

theorem c10_enrich_frame_witness :
    enrichOne (fun _ => none) 0 ({ } : Listing) = ({ } : Listing) :=
  (c10_enrich_frame (fun _ => none) 0 { }).2 rfl

/-! ## Claim C7 — enrichment merge -/

/-- C7 counterexample: the detail result for `Listed: 03/15/2024` has
`days_on_market` absent, and the record's own `days_on_market` is absent
too, yet after enrichment the record's `days_on_market` is `some 5` (the
line 947-949 derivation from the merged listing date) — the record's
existing value is not retained when the detail field is absent. -/
theorem c7_merge_counterexample :
    (scrape_listing_details_extract (toOrdinal ⟨2024, 3, 20⟩)
        ("Listed: 03/15/2024".data)).days_on_market = none
    ∧ ({ url := some "https://streeteasy.com/sale/1" } : Listing).days_on_market = none
    ∧ (enrichOne (fun _ => some ("Listed: 03/15/2024".data))
        (toOrdinal ⟨2024, 3, 20⟩)
        { url := some "https://streeteasy.com/sale/1" }).days_on_market = some 5 := by
  refine ⟨by decide, rfl, by decide⟩

/-- C7 (amended): a present detail field always overwrites, and an absent
detail field leaves the record's value unchanged for `sqft`, `taxes`,
`fees` and `listing_date`; for `days_on_market` the same holds except
that, when the detail result has no day count and the merged record has a
listing date while the record's `days_on_market` is absent (or zero), the
field is set to `now - listing_date` instead of being retained. -/
theorem c7_merge_amended (now : Int) (text : List Char) (l : Listing)
    (d : Details) (m : Listing)
    (hd : d = scrape_listing_details_extract now text)
    (hm : m = mergeDetails now l d) :
    ((∀ v, d.sqft = some v → m.sqft = some v) ∧ (d.sqft = none → m.sqft = l.sqft))
    ∧ ((∀ v, d.taxes = some v → m.taxes = some v) ∧ (d.taxes = none → m.taxes = l.taxes))
    ∧ ((∀ v, d.fees = some v → m.fees = some v) ∧ (d.fees = none → m.fees = l.fees))
    ∧ ((∀ x, d.listing_date = some x → m.listing_date = some x)
       ∧ (d.listing_date = none → m.listing_date = l.listing_date))
    ∧ (∀ n : Nat, d.days_on_market = some n → m.days_on_market = some (n : Int))
    ∧ (d.days_on_market = none → d.listing_date = none →
        (l.listing_date = none ∨ (l.days_on_market ≠ none ∧ l.days_on_market ≠ some 0)) →
        m.days_on_market = l.days_on_market)
    ∧ (d.days_on_market = none → ∀ dt : Int, d.listing_date = some dt →
        (l.days_on_market = none ∨ l.days_on_market = some 0) →
        m.days_on_market = some (now - dt))
    ∧ (d.days_on_market = none → d.listing_date = none → ∀ dt : Int,
        l.listing_date = some dt →
        (l.days_on_market = none ∨ l.days_on_market = some 0) →
        m.days_on_market = some (now - dt)) := by
  subst hm
  refine ⟨⟨?_, ?_⟩, ⟨?_, ?_⟩, ⟨?_, ?_⟩, ⟨?_, ?_⟩, ?_, ?_, ?_, ?_⟩
  · intro v hv
    have hv2 : detail_sqft text = some v := by
      rw [hd] at hv; rwa [sde_sqft] at hv
    have hr := detail_sqft_range text v hv2
    have hvne : v ≠ 0 := by omega
    simp [mergeDetails, hv, hvne]
  · intro hv; simp [mergeDetails, hv]
  · intro v hv
    have hv2 : detail_taxes text = some v := by
      rw [hd] at hv; rwa [sde_taxes] at hv
    have hr := detail_taxes_range text v hv2
    have hvne : v ≠ 0 := by omega
    simp [mergeDetails, hv, hvne]
  · intro hv; simp [mergeDetails, hv]
  · intro v hv
    have hv2 : detail_fees text = some v := by
      rw [hd] at hv; rwa [sde_fees] at hv
    have hr := detail_fees_range text v hv2
    have hvne : v ≠ 0 := by omega
    simp [mergeDetails, hv, hvne]
  · intro hv; simp [mergeDetails, hv]
  · intro x hx; simp [mergeDetails, hx]
  · intro hx; simp [mergeDetails, hx]
  · intro n hn
    have hinv := extract_days_inv now text n (by rw [← hd]; exact hn)
    have hdt : d.listing_date = some (now - n) := by rw [hd]; exact hinv.2
    have hnne : n ≠ 0 := by omega
    have hint : (n : Int) ≠ 0 := Int.natCast_ne_zero.mpr hnne
    simp [mergeDetails, hn, hdt, hnne, hint]
  · intro h1 h2 h3
    rcases h3 with hld | ⟨hne1, hne2⟩
    · simp [mergeDetails, h1, h2, hld]
    · cases hld2 : l.listing_date with
      | none => simp [mergeDetails, h1, h2, hld2]
      | some dt0 => simp [mergeDetails, h1, h2, hld2, hne1, hne2]
  · intro h1 dt h2 h3
    rcases h3 with h3 | h3 <;> simp [mergeDetails, h1, h2, h3]
  · intro h1 h2 dt h3 h4
    rcases h4 with h4 | h4 <;> simp [mergeDetails, h1, h2, h3, h4]

theorem c7_merge_amended_witness :
    (mergeDetails 738965 { }
      (scrape_listing_details_extract 738965 ("850 sqft".data))).sqft = some 850 :=
  (c7_merge_amended 738965 ("850 sqft".data) { } _ _ rfl rfl).1.1 850 (by decide)

/-! ## Claim C9 — HTTP error stops the page loop -/

/-- C9: if pages `1..k-1` fetch successfully with cards and the fetch of
page `k` raises an HTTP error (403 included), the loop requests exactly
pages `1..k` — no further pages — and the function still returns the
deduplicated records accumulated from the earlier pages. -/
theorem c9_http_error_stops (fetch : Nat → PageResult) (cards : Nat → List Card)
    (detailFetch : String → Option (List Char)) (now : Int)
    (max_pages k code : Nat)
    (hk1 : 1 ≤ k) (hk2 : k ≤ max_pages)
    (hok : ∀ j, 1 ≤ j → j < k → fetch j = .ok (cards j) ∧ cards j ≠ [])
    (herr : fetch k = .httpError code) :
    (pageLoop fetch (List.range' 1 max_pages)).2 = List.range' 1 k
    ∧ scrape_streeteasy fetch detailFetch false max_pages now
        = dedup (gatherListings cards (List.range' 1 (k - 1))) := by
  have hsplit : List.range' 1 max_pages
      = List.range' 1 (k - 1) ++ k :: List.range' (k + 1) (max_pages - k) := by
    rw [range'_split (k - 1) 1 max_pages (by omega)]
    congr 1
    have e1 : 1 + (k - 1) = k := by omega
    have e2 : max_pages - (k - 1) = (max_pages - k) + 1 := by omega
    rw [e1, e2, List.range'_succ]
  have hmem : ∀ j ∈ List.range' 1 (k - 1), fetch j = .ok (cards j) ∧ cards j ≠ [] := by
    intro j hj
    have hj2 := List.mem_range'_1.mp hj
    exact hok j hj2.1 (by omega)
  have hloop := pageLoop_break fetch cards code (List.range' 1 (k - 1)) k
      (List.range' (k + 1) (max_pages - k)) hmem herr
  have hk : List.range' 1 (k - 1) ++ [k] = List.range' 1 k := by
    rw [range'_split (k - 1) 1 k (by omega)]
    congr 1
    have e1 : 1 + (k - 1) = k := by omega
    have e2 : k - (k - 1) = 1 := by omega
    rw [e1, e2]
    simp
  constructor
  · rw [hsplit, hloop, ← hk]
  · unfold scrape_streeteasy
    rw [hsplit, hloop]
    simp

theorem c9_http_error_stops_witness :
    scrape_streeteasy fetch403 noDetails false 5 0 = []
    ∧ (pageLoop fetch403 (List.range' 1 5)).2 = [1] := by
  have h := c9_http_error_stops fetch403 noCards noDetails 0 5 1 403
    (by norm_num) (by norm_num)
    (fun j h1 h2 => absurd h1 (by omega)) rfl
  exact ⟨h.2.trans (by rfl), h.1.trans (by rfl)⟩

end SE




